import Mathlib

/-!
Verification of dgcgears (src/dgcgears.c) against its natural-language
specification.  The definitions below are a shallow embedding of the parts of
the program the claims talk about: pure selection logic becomes Lean
functions, the frame-synchronization loop becomes a small transition system,
and fatal `error(...)` exits become `none` / dedicated trace actions.
Machine integers are modelled as `Nat` (none of the embedded computations can
overflow 32 bits on the inputs the claims range over), and bit tests use
`Nat.testBit` / `Nat.land` exactly where the C code masks bits.
-/

namespace DGCGears

/-! ## Vulkan enumeration values (from vulkan_core.h) used by the program -/

def VK_PRESENT_MODE_IMMEDIATE_KHR : Nat := 0

def VK_PRESENT_MODE_MAILBOX_KHR : Nat := 1

def VK_PRESENT_MODE_FIFO_KHR : Nat := 2

def VK_FORMAT_X8_D24_UNORM_PACK32 : Nat := 125

def VK_FORMAT_D32_SFLOAT : Nat := 126

def VK_FORMAT_FEATURE_DEPTH_STENCIL_ATTACHMENT_BIT : Nat := 512

def VK_MEMORY_PROPERTY_DEVICE_LOCAL_BIT : Nat := 1

def VK_MEMORY_PROPERTY_HOST_VISIBLE_BIT : Nat := 2

def VK_MEMORY_PROPERTY_HOST_COHERENT_BIT : Nat := 4

def VK_MEMORY_PROPERTY_LAZILY_ALLOCATED_BIT : Nat := 16

def VK_IMAGE_LAYOUT_UNDEFINED : Nat := 0

def VK_IMAGE_LAYOUT_COLOR_ATTACHMENT_OPTIMAL : Nat := 2

def VK_IMAGE_LAYOUT_PRESENT_SRC_KHR : Nat := 1000001002

/-! ## Memory-type search (dgcgears.c:337-348) and the two-tier image fallback -/

/-- The device's `VkPhysicalDeviceMemoryProperties` as read by
`find_memory_type`: the reported type count and each slot's `propertyFlags`.
The C struct holds a fixed array of 32 slots; we model it as a total function
on indices, matching the fact that the loop may read one slot past the
reported count. -/
structure MemProps where
  memoryTypeCount : Nat
  propertyFlags : Nat → Nat

/-- The loop body of `find_memory_type` (dgcgears.c:341-346):
`for (i = 0; (1u << i) <= reqs->memoryTypeBits && i <= mem_props.memoryTypeCount; ++i)`
returning `i` when bit `i` of the requirement mask is set and the slot's
property flags contain all requested `flags`.  `fuel` only bounds the
recursion; `find_memory_type` passes enough that it never runs out before the
loop condition fails. -/
def find_memory_type_from (mp : MemProps) (memoryTypeBits flags : Nat) :
    Nat → Nat → Int
  | _, 0 => -1
  | i, fuel + 1 =>
    if 2 ^ i ≤ memoryTypeBits ∧ i ≤ mp.memoryTypeCount then
      if Nat.testBit memoryTypeBits i ∧
          Nat.land (mp.propertyFlags i) flags = flags then
        (i : Int)
      else
        find_memory_type_from mp memoryTypeBits flags (i + 1) fuel
    else
      -1

/-- `find_memory_type` (dgcgears.c:337-348): scan from index 0; `-1` reports
failure. -/
def find_memory_type (mp : MemProps) (memoryTypeBits flags : Nat) : Int :=
  find_memory_type_from mp memoryTypeBits flags 0 (mp.memoryTypeCount + 2)

/-- The memory-type selection used for the depth image (dgcgears.c:576-581)
and the multisample resolve image (dgcgears.c:544-548): try the lazily
allocated property first, fall back to device local, and abort fatally
(`none`) when both searches fail. -/
def select_image_memory_type (mp : MemProps) (memoryTypeBits : Nat) : Option Nat :=
  if find_memory_type mp memoryTypeBits VK_MEMORY_PROPERTY_LAZILY_ALLOCATED_BIT < 0 then
    if find_memory_type mp memoryTypeBits VK_MEMORY_PROPERTY_DEVICE_LOCAL_BIT < 0 then
      none
    else
      some (find_memory_type mp memoryTypeBits VK_MEMORY_PROPERTY_DEVICE_LOCAL_BIT).toNat
  else
    some (find_memory_type mp memoryTypeBits VK_MEMORY_PROPERTY_LAZILY_ALLOCATED_BIT).toNat

/-- Some reported memory type satisfies both the requirement bitmask and the
requested property flags. -/
def HasMemType (mp : MemProps) (memoryTypeBits flags : Nat) : Prop :=
  ∃ i, i < mp.memoryTypeCount ∧ Nat.testBit memoryTypeBits i ∧
    Nat.land (mp.propertyFlags i) flags = flags

/-- The full statement of claim C3 about `find_memory_type` and the two-tier
depth/resolve fallback, as a predicate of the device memory properties and a
requirement bitmask. -/
def FindMemoryTypeSpec (mp : MemProps) (memoryTypeBits : Nat) : Prop :=
  (∀ flags,
    (HasMemType mp memoryTypeBits flags →
      ∃ j : Nat, find_memory_type mp memoryTypeBits flags = (j : Int) ∧
        j < mp.memoryTypeCount ∧ Nat.testBit memoryTypeBits j ∧
        Nat.land (mp.propertyFlags j) flags = flags) ∧
    (¬ HasMemType mp memoryTypeBits flags →
      find_memory_type mp memoryTypeBits flags = -1)) ∧
  (HasMemType mp memoryTypeBits VK_MEMORY_PROPERTY_LAZILY_ALLOCATED_BIT →
    ∃ j, select_image_memory_type mp memoryTypeBits = some j ∧
      j < mp.memoryTypeCount ∧ Nat.testBit memoryTypeBits j ∧
      Nat.land (mp.propertyFlags j) VK_MEMORY_PROPERTY_LAZILY_ALLOCATED_BIT =
        VK_MEMORY_PROPERTY_LAZILY_ALLOCATED_BIT) ∧
  (¬ HasMemType mp memoryTypeBits VK_MEMORY_PROPERTY_LAZILY_ALLOCATED_BIT →
    HasMemType mp memoryTypeBits VK_MEMORY_PROPERTY_DEVICE_LOCAL_BIT →
    ∃ j, select_image_memory_type mp memoryTypeBits = some j ∧
      j < mp.memoryTypeCount ∧ Nat.testBit memoryTypeBits j ∧
      Nat.land (mp.propertyFlags j) VK_MEMORY_PROPERTY_DEVICE_LOCAL_BIT =
        VK_MEMORY_PROPERTY_DEVICE_LOCAL_BIT) ∧
  (¬ HasMemType mp memoryTypeBits VK_MEMORY_PROPERTY_LAZILY_ALLOCATED_BIT →
    ¬ HasMemType mp memoryTypeBits VK_MEMORY_PROPERTY_DEVICE_LOCAL_BIT →
    select_image_memory_type mp memoryTypeBits = none)

/-! ## configure_swapchain selections (dgcgears.c:433-496) -/

/-- The present-mode selection loop of `configure_swapchain`
(dgcgears.c:454-460): `present_mode` starts as the guaranteed FIFO mode, and
the scan over the device's reported modes switches to the desired mode and
breaks on the first match. -/
def select_present_mode (present_modes : List Nat) (desidered_present_mode : Nat) : Nat :=
  match present_modes with
  | [] => VK_PRESENT_MODE_FIFO_KHR
  | m :: rest =>
    if m = desidered_present_mode then desidered_present_mode
    else select_present_mode rest desidered_present_mode

/-- The depth-format choice of `configure_swapchain` (dgcgears.c:491-495):
query the optimal-tiling features of `D32_SFLOAT` and pick it when it
advertises the depth-stencil-attachment capability, else `X8_D24_UNORM_PACK32`.
The argument is the device's `vkGetPhysicalDeviceFormatProperties` answer,
as a map from format to `optimalTilingFeatures`. -/
def select_depth_format (optimalTilingFeatures : Nat → Nat) : Nat :=
  if Nat.land (optimalTilingFeatures VK_FORMAT_D32_SFLOAT)
      VK_FORMAT_FEATURE_DEPTH_STENCIL_ATTACHMENT_BIT ≠ 0 then
    VK_FORMAT_D32_SFLOAT
  else
    VK_FORMAT_X8_D24_UNORM_PACK32

/-- The device reports depth-stencil-attachment support for `fmt` with
optimal tiling. -/
def supports_depth_attachment (optimalTilingFeatures : Nat → Nat) (fmt : Nat) : Bool :=
  Nat.land (optimalTilingFeatures fmt)
    VK_FORMAT_FEATURE_DEPTH_STENCIL_ATTACHMENT_BIT != 0

/-- The surface capabilities fields read by the `min_image_count`
computation. -/
structure SurfaceCaps where
  minImageCount : Nat
  maxImageCount : Nat

/-- ARRAY_SIZE(image_data): the per-image bookkeeping array has 5 entries
(dgcgears.c:73-76). -/
def image_data_capacity : Nat := 5

/-- The `min_image_count` computation of `configure_swapchain`
(dgcgears.c:462-473).  The fatal `error(...)` taken when the surface minimum
exceeds the `image_data` capacity is modelled as `none`. -/
def compute_min_image_count (caps : SurfaceCaps) : Option Nat :=
  match (if 2 < caps.minImageCount then
          (if caps.minImageCount > image_data_capacity then none
           else some caps.minImageCount)
        else some 2) with
  | none => none
  | some mic1 =>
    some (if caps.maxImageCount > 0 ∧ mic1 > caps.maxImageCount then
            caps.maxImageCount
          else mic1)

/-! ## Indirect records written at init (dgcgears.c:1440-1456) -/

/-- VkDrawIndirectCommand. -/
structure VkDrawIndirectCommand where
  vertexCount : Nat
  instanceCount : Nat
  firstVertex : Nat
  firstInstance : Nat
deriving DecidableEq

/-- `struct indirect_data` (dgcgears.c:85-88): two execution-set index words
followed by the draw parameters. -/
structure IndirectData where
  ies0 : Nat
  ies1 : Nat
  draw : VkDrawIndirectCommand
deriving DecidableEq

/-- One entry of the `gears` table (dgcgears.c:146-149). -/
structure GearSlice where
  first_vertex : Nat
  vertex_count : Nat

/-- Execution-set indices in pipeline mode (dgcgears.c:1441-1443). -/
def pipeline_idx : List Nat := [0, 1, 2]

/-- Execution-set indices in shader-object mode; the vertex-shader slots are
offset because slot 1 holds the fragment shader (dgcgears.c:1444-1447). -/
def shader_idx : List Nat := [0, 2, 3]

/-- The host write of the three indirect records in `init_gears`
(dgcgears.c:1448-1455): record `i` selects the execution-set index for gear
`i` from the mode's table and copies gear `i`'s draw parameters. -/
def init_indirect_records (use_shader_object : Bool) (gears : Fin 3 → GearSlice) :
    List IndirectData :=
  List.ofFn fun i : Fin 3 =>
    { ies0 := if use_shader_object then shader_idx.getD i 0 else pipeline_idx.getD i 0
      ies1 := 1
      draw :=
        { vertexCount := (gears i).vertex_count
          instanceCount := 1
          firstVertex := (gears i).first_vertex
          firstInstance := 0 } }

/-! ## Sample-count check and the setup order of main (dgcgears.c:1753-1761, 1836-1908) -/

/-- The device limits read by `check_sample_count_support`. -/
structure DeviceLimits where
  framebufferColorSampleCounts : Nat
  framebufferDepthSampleCounts : Nat

/-- `check_sample_count_support` (dgcgears.c:1753-1761): the requested sample
count flag must intersect both the framebuffer color and depth sample-count
masks. -/
def check_sample_count_support (limits : DeviceLimits) (sample_count : Nat) : Bool :=
  (Nat.land sample_count limits.framebufferColorSampleCounts != 0) &&
  (Nat.land sample_count limits.framebufferDepthSampleCounts != 0)

/-- The setup actions of `main` the claims distinguish. -/
inductive SetupAction
  | initDisplay
  | initWindow
  | initVk
  | sampleCheckFailed
  | printInfo
  | createSurface
  | surfaceFailed
  | configureSwapchain
  | createSwapchain
  | initGears
deriving DecidableEq

/-- The setup phase of `main` (dgcgears.c:1889-1908) as the ordered list of
actions performed; `error(...)` terminates the process, so a trace ends at
the failing check. -/
def main_setup_trace (limits : DeviceLimits) (sample_count : Nat)
    (printInfoFlag : Bool) (surface_ok : Bool) : List SetupAction :=
  [SetupAction.initDisplay, SetupAction.initWindow, SetupAction.initVk] ++
  (if !check_sample_count_support limits sample_count then
    [SetupAction.sampleCheckFailed]
  else
    (if printInfoFlag then [SetupAction.printInfo] else []) ++
    (if !surface_ok then [SetupAction.surfaceFailed]
     else [SetupAction.createSurface, SetupAction.configureSwapchain,
           SetupAction.createSwapchain, SetupAction.initGears]))

/-! ## Swapchain recreation (dgcgears.c:498-527, 671-679) -/

/-- The configuration chosen once by `configure_swapchain` and consumed
unchanged by every `create_swapchain` call. -/
structure SwapchainConfig where
  min_image_count : Nat
  image_format : Nat
  color_space : Nat
  present_mode : Nat
  depth_format : Nat
  sample_count : Nat
deriving DecidableEq

/-- The device's answer to `vkGetSwapchainImagesKHR` as a function of the
swapchain creation parameters (the claim's assumption that identical creation
parameters yield the same image count). -/
structure SwapDevice where
  swapchain_image_count : SwapchainConfig → Nat → Nat → Nat

/-- The global swapchain state touched by `create_swapchain` /
`recreate_swapchain`. -/
structure SwapState where
  width : Nat
  height : Nat
  new_width : Nat
  new_height : Nat
  config : SwapchainConfig
  image_count : Nat
  view_count : Nat
deriving DecidableEq

/-- `create_swapchain` (dgcgears.c:498-645): create the swapchain from the
configured parameters at the current width/height, query the image count, and
create one view per swapchain image (plus the depth view and, when
multisampled, the resolve view, whose formats and sample count come unchanged
from the configuration). -/
def create_swapchain (dev : SwapDevice) (s : SwapState) : SwapState :=
  let n := dev.swapchain_image_count s.config s.width s.height
  { s with image_count := n, view_count := n }

/-- `recreate_swapchain` (dgcgears.c:671-679): wait idle, free the old
per-swapchain data, adopt the new dimensions, and run `create_swapchain`
again. -/
def recreate_swapchain (dev : SwapDevice) (s : SwapState) : SwapState :=
  create_swapchain dev { s with width := s.new_width, height := s.new_height }

/-- The attachment configuration claim C7 compares: image format, depth
format, sample count, and the number of per-swapchain-image views. -/
def attachment_config (s : SwapState) : Nat × Nat × Nat × Nat :=
  (s.config.image_format, s.config.depth_format, s.config.sample_count, s.view_count)

/-! ## Key handling and the rotation advance (dgcgears.c:1770-1795, 1922-1927) -/

/-- The wsi key enumeration values `wsi_key_press` distinguishes. -/
inductive WsiKey
  | esc
  | up
  | down
  | left
  | right
  | keyA
  | other
deriving DecidableEq

/-- The interactive state read and written by `wsi_key_press` and the
rotation advance: the two view angles, the animate flag, the rotation angle,
and whether `exit(0)` was requested.  The float angles are modelled as
rationals; the claims proved about them use no properties beyond those shared
with IEEE arithmetic (identity of untouched fields and the guard on the
increment). -/
structure AppState where
  view_rot0 : ℚ
  view_rot1 : ℚ
  animate : Bool
  angle : ℚ
  exitRequested : Bool
deriving DecidableEq

/-- `wsi_key_press` (dgcgears.c:1770-1795). -/
def wsi_key_press (down : Bool) (key : WsiKey) (s : AppState) : AppState :=
  if !down then s
  else
    match key with
    | .esc => { s with exitRequested := true }
    | .up => { s with view_rot0 := s.view_rot0 + 5 }
    | .down => { s with view_rot0 := s.view_rot0 - 5 }
    | .left => { s with view_rot1 := s.view_rot1 + 5 }
    | .right => { s with view_rot1 := s.view_rot1 - 5 }
    | .keyA => { s with animate := !s.animate }
    | .other => s

/-- The per-iteration rotation advance at the top of the render loop
(dgcgears.c:1922-1927): only when `animate` is set, advance the angle by
70 degrees per second and wrap above 3600. -/
def advance_rotation (dt : ℚ) (s : AppState) : AppState :=
  if s.animate then
    { s with angle :=
        if s.angle + 70 * dt > 3600 then s.angle + 70 * dt - 3600
        else s.angle + 70 * dt }
  else s

/-! ## The pre-render image barrier (dgcgears.c:1981-2005) -/

/-- The fields of the `VkImageMemoryBarrier` recorded before rendering that
claim C1 talks about; `imageSlot` is the index of the `image_data` entry
whose `.image` the barrier names. -/
structure ImageBarrier where
  oldLayout : Nat
  newLayout : Nat
  imageSlot : Nat
deriving DecidableEq

/-- The pre-render image memory barrier recorded each frame
(dgcgears.c:1987-2003): the old layout is chosen by the per-image first-use
flag at the acquired image index
(`!first[image_index] ? UNDEFINED : PRESENT_SRC`), but the image is taken
from `image_data[frame_index].image` — the frame-slot index, not the
acquired image index. -/
def record_pre_barrier (first : Nat → Bool) (frame_index image_index : Nat) :
    ImageBarrier :=
  { oldLayout :=
      if !(first image_index) then VK_IMAGE_LAYOUT_UNDEFINED
      else VK_IMAGE_LAYOUT_PRESENT_SRC_KHR
    newLayout := VK_IMAGE_LAYOUT_COLOR_ATTACHMENT_OPTIMAL
    imageSlot := frame_index }

/-- The `image_data` slot the frame actually renders to and presents: the
color attachment view is `image_data[image_index].view` (dgcgears.c:2016 and
2019) and the present call names `image_index` (dgcgears.c:2085). -/
def render_target_slot (image_index : Nat) : Nat := image_index

/-- The first-use flags after `recreate_swapchain` on the resize path:
`memset(first, 0, sizeof(first))` clears them all (dgcgears.c:1947). -/
def first_flags_after_recreate : Nat → Bool := fun _ => false

/-! ## The frame-synchronization loop as a transition system
(dgcgears.c:620-627, 1912-2106) -/

/-- The status of one frame slot's fence.  `createdSignaled` is the state
fences are created in (`VK_FENCE_CREATE_SIGNALED_BIT`, dgcgears.c:620-627);
`pendingSubmission` means the fence was reset and attached to that slot's
most recent queue submission, which will signal it; `submissionSignaled`
means that submission completed; `orphanReset` means the fence was reset and
no submission is attached — waiting on it would block forever. -/
inductive FenceStatus
  | createdSignaled
  | pendingSubmission
  | submissionSignaled
  | orphanReset
deriving DecidableEq

/-- A fence in this status is signaled now or will be signaled by a pending
submission; waiting on it cannot block forever. -/
def FenceStatus.signaledOrPending : FenceStatus → Bool
  | .orphanReset => false
  | _ => true

/-- Program points of one render-loop iteration. -/
inductive LoopPc
  | top
  | acquire
  | record
  | present
deriving DecidableEq

/-- The loop state claim C9 ranges over: the program point, the current
frame-slot index (`frame_index`, ring of MAX_CONCURRENT_FRAMES = 2), and each
slot's fence status. -/
structure LoopState where
  pc : LoopPc
  frame_index : Fin 2
  fences : Fin 2 → FenceStatus

/-- The state at loop entry: `frame_index` starts at 0 and every fence was
just created signaled (dgcgears.c:620-627, 1934). -/
def initLoopState : LoopState :=
  { pc := .top, frame_index := 0, fences := fun _ => .createdSignaled }

/-- One step of the render loop or of the GPU timeline. -/
inductive LoopStep : LoopState → LoopState → Prop
  /-- `vkWaitForFences` + `vkResetFences` on the current slot
  (dgcgears.c:1936-1937); enabled only when the fence is signaled or attached
  to a pending submission, since an orphaned reset fence would block the wait
  forever. -/
  | waitAndReset (s : LoopState) (h : s.pc = .top)
      (hfence : (s.fences s.frame_index).signaledOrPending = true) :
      LoopStep s { s with pc := .acquire,
                          fences := Function.update s.fences s.frame_index .orphanReset }
  /-- the acquire succeeded and the window size is unchanged
  (dgcgears.c:1950-1952). -/
  | acquireOk (s : LoopState) (h : s.pc = .acquire) :
      LoopStep s { s with pc := .record }
  /-- the suboptimal / stale-size path (dgcgears.c:1944-1948):
  `recreate_swapchain` destroys every fence and `create_swapchain` recreates
  them all signaled; the iteration restarts without advancing the ring. -/
  | acquireRecreate (s : LoopState) (h : s.pc = .acquire) :
      LoopStep s { s with pc := .top, fences := fun _ => .createdSignaled }
  /-- `vkQueueSubmit` with the current slot's fence (dgcgears.c:2064-2076). -/
  | submit (s : LoopState) (h : s.pc = .record) :
      LoopStep s { s with pc := .present,
                          fences := Function.update s.fences s.frame_index .pendingSubmission }
  /-- present and advance the ring index modulo MAX_CONCURRENT_FRAMES
  (dgcgears.c:2078-2093). -/
  | presentAdvance (s : LoopState) (h : s.pc = .present) :
      LoopStep s { s with pc := .top, frame_index := s.frame_index + 1 }
  /-- the GPU completes a pending submission, signaling its fence. -/
  | gpuComplete (s : LoopState) (i : Fin 2) (h : s.fences i = .pendingSubmission) :
      LoopStep s { s with fences := Function.update s.fences i .submissionSignaled }

/-- Reachability from the loop-entry state. -/
inductive LoopReachable : LoopState → Prop
  | init : LoopReachable initLoopState
  | step {s t : LoopState} : LoopReachable s → LoopStep s t → LoopReachable t

/-- The strengthened invariant: an orphaned reset fence can only be the
current slot's, and only between the reset and the submit of the same
iteration. -/
def LoopInv (s : LoopState) : Prop :=
  ∀ i : Fin 2, s.fences i = .orphanReset →
    i = s.frame_index ∧ (s.pc = .acquire ∨ s.pc = .record)

/-! ## Theorems -/

/-- Claim C1 (code bug): on a frame whose ring slot is 1 and whose acquired
image index is 0 — for instance the second loop iteration when the
presentation engine hands image 0 back — the pre-render barrier names
`image_data[1].image` (the frame-slot index) while the same recording renders
to and presents `image_data[0].image` (the acquired image index).  The
barrier therefore does not transition the image that was acquired for this
frame, contrary to the claim; the old-layout bookkeeping itself is indexed by
the acquired image index as the claim states. -/
theorem record_pre_barrier_targets_frame_slot :
    (record_pre_barrier first_flags_after_recreate 1 0).imageSlot = 1 ∧
    render_target_slot 0 = 0 ∧
    (record_pre_barrier first_flags_after_recreate 1 0).imageSlot ≠ render_target_slot 0 ∧
    (record_pre_barrier first_flags_after_recreate 1 0).oldLayout =
      VK_IMAGE_LAYOUT_UNDEFINED ∧
    (record_pre_barrier first_flags_after_recreate 1 0).newLayout =
      VK_IMAGE_LAYOUT_COLOR_ATTACHMENT_OPTIMAL := by
  decide

/-- Claim C2: at init the host writes exactly 3 indirect records, one per
gear in order, record `i` taking its execution-set index from position `i` of
`{0,2,3}` in shader-object mode and of `{0,1,2}` in pipeline mode, with draw
parameters vertex count = `gears[i].vertex_count`, first vertex =
`gears[i].first_vertex`, instance count 1 and first instance 0. -/
theorem init_indirect_records_spec (use_shader_object : Bool)
    (gears : Fin 3 → GearSlice) :
    (init_indirect_records use_shader_object gears).length = 3 ∧
    ∀ i : Fin 3,
      (init_indirect_records use_shader_object gears).getD i ⟨0, 0, ⟨0, 0, 0, 0⟩⟩ =
        { ies0 := (if use_shader_object then [0, 2, 3] else [0, 1, 2]).getD i 0
          ies1 := 1
          draw :=
            { vertexCount := (gears i).vertex_count
              instanceCount := 1
              firstVertex := (gears i).first_vertex
              firstInstance := 0 } } := by
  constructor
  · simp [init_indirect_records]
  · intro i
    fin_cases i <;> cases use_shader_object <;>
      simp [init_indirect_records, shader_idx, pipeline_idx]

/-- Claim C4: when the requested sample count intersects neither or only one
of the device's framebuffer color/depth sample-count masks, the program hits
the fatal diagnostic and the setup trace never reaches `configure_swapchain`
or `create_swapchain`. -/
theorem sample_count_unsupported_fails_fast (limits : DeviceLimits)
    (sample_count : Nat) (printInfoFlag surface_ok : Bool)
    (h : check_sample_count_support limits sample_count = false) :
    SetupAction.sampleCheckFailed ∈
      main_setup_trace limits sample_count printInfoFlag surface_ok ∧
    SetupAction.configureSwapchain ∉
      main_setup_trace limits sample_count printInfoFlag surface_ok ∧
    SetupAction.createSwapchain ∉
      main_setup_trace limits sample_count printInfoFlag surface_ok := by
  simp [main_setup_trace, h]

/-- Witness for claim C4: a device whose color and depth masks only contain
the single-sample bit rejects a requested sample count of 2 before any
swapchain step. -/
theorem sample_count_unsupported_fails_fast_witness :
    check_sample_count_support ⟨1, 1⟩ 2 = false ∧
    (SetupAction.sampleCheckFailed ∈ main_setup_trace ⟨1, 1⟩ 2 false true ∧
     SetupAction.configureSwapchain ∉ main_setup_trace ⟨1, 1⟩ 2 false true ∧
     SetupAction.createSwapchain ∉ main_setup_trace ⟨1, 1⟩ 2 false true) :=
  ⟨by decide, sample_count_unsupported_fails_fast ⟨1, 1⟩ 2 false true (by decide)⟩

/-- Claim C5: whenever the device supports at least one of the two candidate
depth formats with the depth-stencil-attachment capability for optimal
tiling, `configure_swapchain` selects one of the two candidates, and the one
it selects is supported. -/
theorem select_depth_format_correct (optimalTilingFeatures : Nat → Nat)
    (h : supports_depth_attachment optimalTilingFeatures VK_FORMAT_D32_SFLOAT = true ∨
         supports_depth_attachment optimalTilingFeatures VK_FORMAT_X8_D24_UNORM_PACK32 = true) :
    (select_depth_format optimalTilingFeatures = VK_FORMAT_D32_SFLOAT ∨
     select_depth_format optimalTilingFeatures = VK_FORMAT_X8_D24_UNORM_PACK32) ∧
    supports_depth_attachment optimalTilingFeatures
      (select_depth_format optimalTilingFeatures) = true := by
  unfold select_depth_format
  by_cases hd : Nat.land (optimalTilingFeatures VK_FORMAT_D32_SFLOAT)
      VK_FORMAT_FEATURE_DEPTH_STENCIL_ATTACHMENT_BIT ≠ 0
  · rw [if_pos hd]
    exact ⟨Or.inl rfl, by simpa [supports_depth_attachment] using hd⟩
  · rw [if_neg hd]
    refine ⟨Or.inr rfl, ?_⟩
    rcases h with h1 | h2
    · exact absurd (by simpa [supports_depth_attachment] using h1) hd
    · exact h2

/-- Witness for claim C5: a device reporting the depth-stencil-attachment
feature bit for every format. -/
theorem select_depth_format_correct_witness :
    (supports_depth_attachment (fun _ => 512) VK_FORMAT_D32_SFLOAT = true ∨
     supports_depth_attachment (fun _ => 512) VK_FORMAT_X8_D24_UNORM_PACK32 = true) ∧
    ((select_depth_format (fun _ => 512) = VK_FORMAT_D32_SFLOAT ∨
      select_depth_format (fun _ => 512) = VK_FORMAT_X8_D24_UNORM_PACK32) ∧
     supports_depth_attachment (fun _ => 512) (select_depth_format (fun _ => 512)) = true) :=
  ⟨Or.inl (by decide), select_depth_format_correct (fun _ => 512) (Or.inl (by decide))⟩

/-- Claim C6: `configure_swapchain` sets the present mode to the desired mode
exactly when it appears in the device's reported list, and to the guaranteed
FIFO fallback otherwise. -/
theorem select_present_mode_correct (present_modes : List Nat)
    (desidered_present_mode : Nat) :
    select_present_mode present_modes desidered_present_mode =
      if desidered_present_mode ∈ present_modes then desidered_present_mode
      else VK_PRESENT_MODE_FIFO_KHR := by
  induction present_modes with
  | nil => simp [select_present_mode]
  | cons m rest ih =>
    unfold select_present_mode
    by_cases h : m = desidered_present_mode
    · subst h
      simp
    · rw [if_neg h, ih]
      by_cases hm : desidered_present_mode ∈ rest
      · simp [hm, List.mem_cons]
      · have hne : desidered_present_mode ≠ m := fun hh => h hh.symm
        simp [hm, List.mem_cons, hne]

/-- Claim C7: running `recreate_swapchain` twice in succession with the
target dimensions unchanged yields the same attachment configuration (image
format, depth format, sample count, per-image view count) both times, given
the device reports the same image count for identical creation parameters
(encoded by `SwapDevice` being a function of those parameters). -/
theorem recreate_swapchain_idempotent_config (dev : SwapDevice) (s : SwapState) :
    attachment_config (recreate_swapchain dev (recreate_swapchain dev s)) =
      attachment_config (recreate_swapchain dev s) := rfl

/-- Claim C8: starting from an animating state, pressing the animation key
once freezes the angle across loop iterations, the toggles themselves never
change the angle, and pressing it a second time restores the state exactly,
so the angle resumes advancing from the held value rather than from zero. -/
theorem animate_toggle_twice_identity (v0 v1 a dt : ℚ) :
    wsi_key_press true WsiKey.keyA
        (wsi_key_press true WsiKey.keyA ⟨v0, v1, true, a, false⟩) =
      ⟨v0, v1, true, a, false⟩ ∧
    (wsi_key_press true WsiKey.keyA ⟨v0, v1, true, a, false⟩).angle = a ∧
    advance_rotation dt (wsi_key_press true WsiKey.keyA ⟨v0, v1, true, a, false⟩) =
      wsi_key_press true WsiKey.keyA ⟨v0, v1, true, a, false⟩ ∧
    (advance_rotation dt (wsi_key_press true WsiKey.keyA
        (wsi_key_press true WsiKey.keyA ⟨v0, v1, true, a, false⟩))).angle =
      (advance_rotation dt ⟨v0, v1, true, a, false⟩).angle := by
  simp [wsi_key_press, advance_rotation]

/-- A set bit of a mask below `2 ^ count` lies below `count`. -/
theorem testBit_lt_of_lt_two_pow {memoryTypeBits count k : Nat}
    (hvalid : memoryTypeBits < 2 ^ count)
    (hk : Nat.testBit memoryTypeBits k = true) : k < count := by
  by_contra hle
  push_neg at hle
  have hlt : memoryTypeBits < 2 ^ k :=
    lt_of_lt_of_le hvalid (Nat.pow_le_pow_right (by norm_num) hle)
  rw [Nat.testBit_eq_false_of_lt hlt] at hk
  cases hk

/-- Soundness of the `find_memory_type` loop: a returned index has its bit
set in the requirement mask and its property flags contain the request. -/
theorem find_memory_type_from_sound (mp : MemProps) (memoryTypeBits flags : Nat) :
    ∀ fuel i j : Nat,
      find_memory_type_from mp memoryTypeBits flags i fuel = (j : Int) →
      Nat.testBit memoryTypeBits j = true ∧
        Nat.land (mp.propertyFlags j) flags = flags := by
  intro fuel
  induction fuel with
  | zero =>
    intro i j h
    exact absurd h (by simp [find_memory_type_from])
  | succ fuel ih =>
    intro i j h
    unfold find_memory_type_from at h
    split at h
    · split at h
      · rename_i hsat
        have hij : i = j := by exact_mod_cast h
        subst hij
        exact hsat
      · exact ih (i + 1) j h
    · exact absurd h (by omega)

/-- Completeness of the `find_memory_type` loop: when some index at or after
the scan position satisfies the request and lies within the scanned range,
the loop returns an index (not `-1`). -/
theorem find_memory_type_from_complete (mp : MemProps) (memoryTypeBits flags j : Nat)
    (hbit : Nat.testBit memoryTypeBits j = true)
    (hflags : Nat.land (mp.propertyFlags j) flags = flags)
    (hjc : j ≤ mp.memoryTypeCount) :
    ∀ fuel i, i ≤ j → j < i + fuel →
      ∃ k : Nat, find_memory_type_from mp memoryTypeBits flags i fuel = (k : Int) := by
  have h2j : 2 ^ j ≤ memoryTypeBits := by
    by_contra hcon
    push_neg at hcon
    rw [Nat.testBit_eq_false_of_lt hcon] at hbit
    cases hbit
  intro fuel
  induction fuel with
  | zero =>
    intro i hij hlt
    omega
  | succ fuel ih =>
    intro i hij hlt
    have h2i : 2 ^ i ≤ memoryTypeBits :=
      le_trans (Nat.pow_le_pow_right (by norm_num) hij) h2j
    unfold find_memory_type_from
    rw [if_pos ⟨h2i, le_trans hij hjc⟩]
    by_cases hsat : Nat.testBit memoryTypeBits i = true ∧
        Nat.land (mp.propertyFlags i) flags = flags
    · rw [if_pos hsat]
      exact ⟨i, rfl⟩
    · rw [if_neg hsat]
      rcases Nat.lt_or_ge i j with hlt2 | hge
      · exact ih (i + 1) hlt2 (by omega)
      · have hij2 : i = j := le_antisymm hij hge
        subst hij2
        exact absurd ⟨hbit, hflags⟩ hsat

/-- When no index at all satisfies the request, the loop reports `-1`. -/
theorem find_memory_type_from_neg (mp : MemProps) (memoryTypeBits flags : Nat)
    (h : ∀ k, ¬ (Nat.testBit memoryTypeBits k = true ∧
        Nat.land (mp.propertyFlags k) flags = flags)) :
    ∀ fuel i, find_memory_type_from mp memoryTypeBits flags i fuel = -1 := by
  intro fuel
  induction fuel with
  | zero => intro i; rfl
  | succ fuel ih =>
    intro i
    unfold find_memory_type_from
    split
    · rw [if_neg (h i)]
      exact ih (i + 1)
    · rfl

/-- Claim C3: under the Vulkan guarantee that the requirement bitmask only
names reported memory types (all set bits lie below `memoryTypeCount`),
`find_memory_type` returns an index whose bit is set and whose memory type
carries all the desired property flags whenever some reported type satisfies
both, and `-1` otherwise; and the depth/resolve selection tries the
lazily-allocated property first, falls back to device-local, and is fatal
exactly when both searches fail. -/
theorem find_memory_type_correct (mp : MemProps) (memoryTypeBits : Nat)
    (hvalid : memoryTypeBits < 2 ^ mp.memoryTypeCount) :
    FindMemoryTypeSpec mp memoryTypeBits := by
  have pos : ∀ flags, HasMemType mp memoryTypeBits flags →
      ∃ j : Nat, find_memory_type mp memoryTypeBits flags = (j : Int) ∧
        j < mp.memoryTypeCount ∧ Nat.testBit memoryTypeBits j = true ∧
        Nat.land (mp.propertyFlags j) flags = flags := by
    rintro flags ⟨i, hic, hbit, hfl⟩
    obtain ⟨k, hk⟩ := find_memory_type_from_complete mp memoryTypeBits flags i hbit hfl
      (le_of_lt hic) (mp.memoryTypeCount + 2) 0 (Nat.zero_le i) (by omega)
    have hs := find_memory_type_from_sound mp memoryTypeBits flags
      (mp.memoryTypeCount + 2) 0 k hk
    exact ⟨k, hk, testBit_lt_of_lt_two_pow hvalid hs.1, hs.1, hs.2⟩
  have neg : ∀ flags, ¬ HasMemType mp memoryTypeBits flags →
      find_memory_type mp memoryTypeBits flags = -1 := by
    intro flags hno
    apply find_memory_type_from_neg
    intro k hk
    exact hno ⟨k, testBit_lt_of_lt_two_pow hvalid hk.1, hk.1, hk.2⟩
  refine ⟨fun flags => ⟨pos flags, neg flags⟩, ?_, ?_, ?_⟩
  · intro hlazy
    obtain ⟨j, hj, hjc, hjb, hjf⟩ := pos _ hlazy
    refine ⟨j, ?_, hjc, hjb, hjf⟩
    unfold select_image_memory_type
    rw [hj, if_neg (by omega : ¬ ((j : Int) < 0)), Int.toNat_natCast]
  · intro hnolazy hlocal
    obtain ⟨j, hj, hjc, hjb, hjf⟩ := pos _ hlocal
    refine ⟨j, ?_, hjc, hjb, hjf⟩
    unfold select_image_memory_type
    rw [neg _ hnolazy, hj, if_pos (by omega : (-1 : Int) < 0),
      if_neg (by omega : ¬ ((j : Int) < 0)), Int.toNat_natCast]
  · intro hnolazy hnolocal
    unfold select_image_memory_type
    rw [neg _ hnolazy, neg _ hnolocal,
      if_pos (by omega : (-1 : Int) < 0), if_pos (by omega : (-1 : Int) < 0)]

/-- Witness for claim C3: a device with two reported memory types, type 0
device-local and type 1 lazily-allocated, and a requirement mask naming
both. -/
theorem find_memory_type_correct_witness :
    (3 : Nat) < 2 ^ (MemProps.mk 2 (fun i => if i = 0 then 1 else 16)).memoryTypeCount ∧
    FindMemoryTypeSpec ⟨2, fun i => if i = 0 then 1 else 16⟩ 3 :=
  ⟨by decide, find_memory_type_correct ⟨2, fun i => if i = 0 then 1 else 16⟩ 3 (by decide)⟩

/-- Every reachable loop state satisfies the strengthened fence invariant. -/
theorem loop_inv_of_reachable {s : LoopState} (h : LoopReachable s) : LoopInv s := by
  induction h with
  | init =>
    intro i hi
    cases hi
  | @step t u hr hst ih =>
    cases hst with
    | waitAndReset ht hf =>
      intro i hi
      dsimp at hi ⊢
      by_cases hie : i = t.frame_index
      · exact ⟨hie, Or.inl rfl⟩
      · rw [Function.update_noteq hie] at hi
        rcases ih i hi with ⟨_, hpc⟩
        rw [ht] at hpc
        rcases hpc with h1 | h1 <;> cases h1
    | acquireOk ht =>
      intro i hi
      dsimp at hi ⊢
      rcases ih i hi with ⟨hie, _⟩
      exact ⟨hie, Or.inr rfl⟩
    | acquireRecreate ht =>
      intro i hi
      cases hi
    | submit ht =>
      intro i hi
      dsimp at hi ⊢
      by_cases hie : i = t.frame_index
      · rw [hie, Function.update_same] at hi
        cases hi
      · rw [Function.update_noteq hie] at hi
        rcases ih i hi with ⟨hie2, _⟩
        exact absurd hie2 hie
    | presentAdvance ht =>
      intro i hi
      dsimp at hi ⊢
      rcases ih i hi with ⟨_, hpc⟩
      rw [ht] at hpc
      rcases hpc with h1 | h1 <;> cases h1
    | gpuComplete i0 hp =>
      intro i hi
      dsimp at hi ⊢
      by_cases hie : i = i0
      · rw [hie, Function.update_same] at hi
        cases hi
      · rw [Function.update_noteq hie] at hi
        exact ih i hi

/-- Claim C9: every frame-slot fence is created in the signaled state, and in
every reachable state where the loop is about to WAIT_SLOT, every slot's
fence is signaled or attached to that slot's pending submission — never a
reset fence that no pending or completed submission will signal, so the wait
cannot block forever. -/
theorem wait_slot_fence_never_orphaned (s : LoopState) (hreach : LoopReachable s) :
    (∀ i : Fin 2, initLoopState.fences i = .createdSignaled) ∧
    (s.pc = .top → ∀ i : Fin 2, (s.fences i).signaledOrPending = true) := by
  refine ⟨fun i => rfl, fun htop i => ?_⟩
  have hinv := loop_inv_of_reachable hreach
  cases hcase : s.fences i with
  | orphanReset =>
    rcases hinv i hcase with ⟨_, hpc⟩
    rw [htop] at hpc
    rcases hpc with h1 | h1 <;> cases h1
  | createdSignaled => rfl
  | pendingSubmission => rfl
  | submissionSignaled => rfl

/-- Witness for claim C9: the loop-entry state itself is reachable and
satisfies the WAIT_SLOT precondition. -/
theorem wait_slot_fence_never_orphaned_witness :
    LoopReachable initLoopState ∧
    ((∀ i : Fin 2, initLoopState.fences i = .createdSignaled) ∧
     (initLoopState.pc = .top →
       ∀ i : Fin 2, (initLoopState.fences i).signaledOrPending = true)) :=
  ⟨LoopReachable.init,
   wait_slot_fence_never_orphaned initLoopState LoopReachable.init⟩

/-- Claim C10 counterexample: a surface reporting minImageCount = 1 and
maxImageCount = 1 (valid per Vulkan, where a nonzero maximum is at least the
minimum) makes `configure_swapchain` choose min_image_count = 1, below the
claimed lower bound `max 2 minImageCount = 2`. -/
theorem compute_min_image_count_counterexample :
    compute_min_image_count ⟨1, 1⟩ = some 1 ∧ ¬ (max 2 1 ≤ 1) := by
  decide

/-- Claim C10 (amended): after `configure_swapchain`, a surface minimum above
5 is a fatal error before any swapchain exists; otherwise the chosen
min_image_count never exceeds 5 (the image_data capacity), never exceeds a
nonzero surface maximum, equals `max 2 minImageCount` whenever that bound
does not exceed the nonzero surface maximum (or the maximum is unbounded),
and equals the surface maximum when the nonzero maximum is below that
bound. -/
theorem compute_min_image_count_spec (caps : SurfaceCaps) :
    (image_data_capacity < caps.minImageCount → compute_min_image_count caps = none) ∧
    (caps.minImageCount ≤ image_data_capacity →
      ∃ m, compute_min_image_count caps = some m ∧
        m ≤ image_data_capacity ∧
        (0 < caps.maxImageCount → m ≤ caps.maxImageCount) ∧
        (caps.maxImageCount = 0 ∨ max 2 caps.minImageCount ≤ caps.maxImageCount →
          m = max 2 caps.minImageCount) ∧
        (0 < caps.maxImageCount → caps.maxImageCount < max 2 caps.minImageCount →
          m = caps.maxImageCount)) := by
  simp only [image_data_capacity]
  constructor
  · intro h5
    unfold compute_min_image_count image_data_capacity
    rw [if_pos (by omega : 2 < caps.minImageCount),
      if_pos (by omega : caps.minImageCount > 5)]
  · intro h5
    by_cases h1 : 2 < caps.minImageCount
    · have heq : compute_min_image_count caps =
          some (if caps.maxImageCount > 0 ∧ caps.minImageCount > caps.maxImageCount
                then caps.maxImageCount else caps.minImageCount) := by
        unfold compute_min_image_count image_data_capacity
        rw [if_pos h1, if_neg (by omega : ¬ caps.minImageCount > 5)]
      by_cases h3 : caps.maxImageCount > 0 ∧ caps.minImageCount > caps.maxImageCount
      · rw [if_pos h3] at heq
        refine ⟨caps.maxImageCount, heq, by omega, by omega, ?_, by omega⟩
        intro h4
        rcases h4 with h4 | h4 <;> omega
      · rw [if_neg h3] at heq
        refine ⟨caps.minImageCount, heq, by omega, by omega, by omega, by omega⟩
    · have heq : compute_min_image_count caps =
          some (if caps.maxImageCount > 0 ∧ 2 > caps.maxImageCount
                then caps.maxImageCount else 2) := by
        unfold compute_min_image_count image_data_capacity
        rw [if_neg h1]
      by_cases h3 : caps.maxImageCount > 0 ∧ 2 > caps.maxImageCount
      · rw [if_pos h3] at heq
        refine ⟨caps.maxImageCount, heq, by omega, by omega, ?_, by omega⟩
        intro h4
        rcases h4 with h4 | h4 <;> omega
      · rw [if_neg h3] at heq
        refine ⟨2, heq, by omega, by omega, by omega, by omega⟩

end DGCGears
